import Mathlib

/-!
Verification development for the Genesis-Melodies repository.

This file gives a shallow embedding, in Lean 4, of the parts of the
repository's JavaScript/TypeScript source that the specified properties
talk about:

* the search-form validation logic of `public/scripts/avraham.js` /
  the avraham-dense page script (`validateSearchButton`,
  `VALID_COMBINATIONS`, `performSearch`, `updateSearchVersesField`),
* the embedding generation module (`embeddings.ts`:
  `MODEL_CONFIGS`, `loadModel`, `generateEmbeddingPython`,
  `generateSentenceTransformerEmbedding`, `generateEmbedding`),
* the result rendering (`displayResults`, `formatVerses`) of both the
  avraham-dense page script and `public/scripts/main-dense-2.js`,
* the feedback submission state machine (`handleFeedbackSubmit`,
  `updateSubmitButtonState`).

DOM reads/writes are modelled by explicit inputs and outputs; `JSON.parse`
of a form field is modelled by passing the parse result (`Option`) as the
input; external services (the transformers pipeline, the Python embedding
script, Firestore) are modelled as explicit function parameters or as
event outcomes.
-/

namespace GenesisMelodies

/-- A verse reference: `{chapter, verse}` objects used throughout the
frontend.  Both components are numbers (`parseInt` of the DOM data). -/
structure VerseRef where
  chapter : Nat
  verse : Nat
deriving DecidableEq, Repr

/-! ## Compatibility matrix and search-button validation

From the avraham-dense page script (`src/unnamed/part_006`, lines 551-597),
identical in `public/scripts/avraham.js`. -/

/-- `VALID_COMBINATIONS` (part_006 lines 552-558): the static object mapping
each record level to the list of permitted model names; property lookup on
a key that is absent yields `undefined`, modelled as `none`. -/
def VALID_COMBINATIONS (recordLevel : String) : Option (List String) :=
  if recordLevel = "pericope" then some ["hebrew_st", "english_st"]
  else if recordLevel = "verse" then some ["hebrew_st", "berit", "english_st"]
  else if recordLevel = "agentic_berit" then some ["berit", "hebrew_st", "english_st"]
  else if recordLevel = "agentic_hebrew_st" then some ["hebrew_st", "english_st"]
  else if recordLevel = "agentic_english_st" then some ["hebrew_st", "english_st"]
  else none

/-- The validity check of `validateSearchButton` (part_006 lines 567-568):
`VALID_COMBINATIONS[recordLevel] && VALID_COMBINATIONS[recordLevel].includes(modelName)`. -/
def isValidCombination (modelName recordLevel : String) : Bool :=
  match VALID_COMBINATIONS recordLevel with
  | some models => models.contains modelName
  | none => false

/-- The `validModels` fallback used when building the tooltip
(part_006 line 591): `VALID_COMBINATIONS[recordLevel] || []`. -/
def validModelsFor (recordLevel : String) : List String :=
  (VALID_COMBINATIONS recordLevel).getD []

/-- The tooltip set on an invalid combination (part_006 line 592). -/
def invalidComboTitle (recordLevel : String) : String :=
  "Invalid combination. For " ++ recordLevel ++ ", valid models are: " ++
    String.intercalate ", " (validModelsFor recordLevel)

/-- The outcome of `validateSearchButton` on the search button element:
its `disabled` flag and its `title` tooltip. -/
structure SearchButtonState where
  disabled : Bool
  title : String
deriving DecidableEq, Repr

/-- The `hasVerses` check of `validateSearchButton` (part_006 lines 571-577):
`JSON.parse` of the `search_verses` field must yield an array with
`length > 0`; a parse failure (`none`) counts as no verses. -/
def hasVersesCheck (parsed : Option (List VerseRef)) : Bool :=
  match parsed with
  | some verses => decide (verses.length > 0)
  | none => false

/-- `validateSearchButton` (part_006 lines 560-597) as a pure function of
the three form inputs it reads: the model name, the record level, and the
`JSON.parse` result of the `search_verses` textarea. -/
def validateSearchButton (modelName recordLevel : String)
    (parsed : Option (List VerseRef)) : SearchButtonState :=
  let isValid := isValidCombination modelName recordLevel
  let hasVerses := hasVersesCheck parsed
  let canSearch := isValid && hasVerses
  if canSearch then
    { disabled := false, title := "" }
  else if !isValid then
    { disabled := true, title := invalidComboTitle recordLevel }
  else
    { disabled := true, title := "Please add verses to search" }

/-! ## performSearch (part_006 lines 682-787)

Modelled as a pure function of the form state: it validates the
combination, then parses `search_verses`, and only then builds the URL and
issues the `fetch` to `/api/search`.  The outcome type records which of
the three paths was taken; the network fetch happens only on the
`request` outcome. -/

/-- The form state `performSearch` reads from the DOM.  The
`search_verses` field is carried as the result of `JSON.parse` on its
text (`none` models a parse exception). -/
structure FormState where
  modelName : String
  recordLevel : String
  topK : String
  searchVersesParse : Option (List VerseRef)

/-- The issued backend request (the query parameters of the `fetch` URL,
part_006 lines 735-740). -/
structure SearchRequest where
  model_name : String
  record_level : String
  top_k : String
  search_verses : List VerseRef
deriving DecidableEq, Repr

/-- The possible outcomes of `performSearch`: an invalid-combination error
message (lines 720-723, early return), an invalid-JSON error message
(lines 726-732, early return), or an issued search request (the `fetch`
at line 754). -/
inductive SearchOutcome where
  | invalidCombo (msg : String)
  | invalidJson
  | request (req : SearchRequest)
deriving DecidableEq, Repr

/-- `performSearch` (part_006 lines 682-760) reduced to its control flow
over the form state: combination check first, then JSON parse check, then
the request. -/
def performSearch (st : FormState) : SearchOutcome :=
  if !isValidCombination st.modelName st.recordLevel then
    .invalidCombo ("Invalid combination: " ++ st.modelName ++
      " cannot be used with " ++ st.recordLevel)
  else
    match st.searchVersesParse with
    | none => .invalidJson
    | some searchVerses =>
        .request { model_name := st.modelName, record_level := st.recordLevel,
                   top_k := st.topK, search_verses := searchVerses }

/-- Whether a `performSearch` outcome issued the network fetch to the
search endpoint. -/
def fetchIssued : SearchOutcome → Bool
  | .request _ => true
  | _ => false

/-- A click on the search button: the DOM never fires the click handler
of a disabled button, so `performSearch` runs only when
`validateSearchButton` left the button enabled. -/
def clickSearch (st : FormState) : Option SearchRequest :=
  if (validateSearchButton st.modelName st.recordLevel st.searchVersesParse).disabled then
    none
  else
    match performSearch st with
    | .request req => some req
    | _ => none

/-- Backend embedder invocations caused by a click: the backend embeds the
resolved search text once per received request, and a request that is
never issued causes none. -/
def embedderCallCount (st : FormState) : Nat :=
  match clickSearch st with
  | some _ => 1
  | none => 0

/-! ### The compatibility matrix as the specification states it -/

/-- The compatibility matrix exactly as the specification's words give it,
written independently of `VALID_COMBINATIONS` for comparison: pericope ->
{hebrew_st, english_st}; verse -> {hebrew_st, berit, english_st};
agentic_berit -> {berit, hebrew_st, english_st}; agentic_hebrew_st ->
{hebrew_st, english_st}; agentic_english_st -> {hebrew_st, english_st}. -/
def specCompatibilityMatrix : List (String × List String) :=
  [("pericope", ["hebrew_st", "english_st"]),
   ("verse", ["hebrew_st", "berit", "english_st"]),
   ("agentic_berit", ["berit", "hebrew_st", "english_st"]),
   ("agentic_hebrew_st", ["hebrew_st", "english_st"]),
   ("agentic_english_st", ["hebrew_st", "english_st"])]

/-- The specification's acceptance predicate: `record_level` is a key of
the matrix and `model_name` is a member of its permitted set. -/
def specCompatible (modelName recordLevel : String) : Prop :=
  ∃ models, (specCompatibilityMatrix.lookup recordLevel) = some models ∧
    modelName ∈ models

instance (m r : String) : Decidable (specCompatible m r) := by
  unfold specCompatible
  infer_instance

/-! ## Verse selection and the search_verses field

From part_006: `selectedVerses` (line 4) is a JS `Set` of canonical
`"chapter:verse"` strings, modelled as a duplicate-free insertion-ordered
list of `VerseRef` (the canonical decimal key strings are in bijection
with the numeric pairs).  `toggleVerseSelection` (lines 192-216) adds or
removes a key; `updateSearchVersesField` (lines 218-233) turns the set
into the sorted array written to the `search_verses` field. -/

/-- The sort comparator of `updateSearchVersesField` (part_006 lines
225-228): ascending by chapter, then by verse.  `(a, b) =>
a.chapter - b.chapter`, ties broken by `a.verse - b.verse`. -/
def verseLE (a b : VerseRef) : Prop :=
  a.chapter < b.chapter ∨ (a.chapter = b.chapter ∧ a.verse ≤ b.verse)

instance : DecidableRel verseLE := by
  unfold verseLE
  infer_instance

instance : IsTotal VerseRef verseLE :=
  ⟨by intro a b; unfold verseLE; omega⟩

instance : IsTrans VerseRef verseLE :=
  ⟨by intro a b c hab hbc; unfold verseLE at *; omega⟩

instance : IsAntisymm VerseRef verseLE :=
  ⟨by intro a b h1 h2; cases a; cases b; unfold verseLE at *; simp_all; omega⟩

/-- `updateSearchVersesField` (part_006 lines 218-233): the array placed
in the `search_verses` field is `Array.from(selectedVerses)` parsed back
to `{chapter, verse}` objects and sorted by the comparator.  JS
`Array.prototype.sort` with this comparator sorts by the total order
`verseLE`; since `verseLE` is antisymmetric on values, any correct sort
yields the same list, modelled here by insertion sort. -/
def updateSearchVersesField (selected : List VerseRef) : List VerseRef :=
  List.insertionSort verseLE selected

/-- `toggleVerseSelection` (part_006 lines 192-216) on the selected set:
`Set.add` appends the key if absent and is a no-op if present;
`Set.delete` removes it. -/
def toggleVerseSelection (selected : List VerseRef) (v : VerseRef)
    (isSelected : Bool) : List VerseRef :=
  if isSelected then
    if v ∈ selected then selected else selected ++ [v]
  else
    selected.erase v

/-- A sequence of user verse selections applied to the initially empty
selected set. -/
def applySelections (sels : List VerseRef) : List VerseRef :=
  sels.foldl (fun s v => toggleVerseSelection s v true) []

lemma toggle_add_nodup {s : List VerseRef} (h : s.Nodup) (v : VerseRef) :
    (toggleVerseSelection s v true).Nodup := by
  unfold toggleVerseSelection
  by_cases hv : v ∈ s <;> simp [hv, h, List.nodup_append]

lemma toggle_add_mem {s : List VerseRef} (v x : VerseRef) :
    x ∈ toggleVerseSelection s v true ↔ x ∈ s ∨ x = v := by
  unfold toggleVerseSelection
  by_cases hv : v ∈ s
  · simp only [if_true, hv, if_pos]
    constructor
    · exact fun h => Or.inl h
    · rintro (h | rfl)
      · exact h
      · exact hv
  · simp [hv]

lemma applySelections_core (sels : List VerseRef) :
    ∀ s : List VerseRef, s.Nodup →
      (sels.foldl (fun t v => toggleVerseSelection t v true) s).Nodup ∧
      (∀ x, x ∈ sels.foldl (fun t v => toggleVerseSelection t v true) s ↔
        x ∈ s ∨ x ∈ sels) := by
  induction sels with
  | nil => intro s hs; simpa using hs
  | cons v rest ih =>
      intro s hs
      have hstep := ih (toggleVerseSelection s v true) (toggle_add_nodup hs v)
      refine ⟨hstep.1, fun x => ?_⟩
      rw [List.foldl_cons, hstep.2 x, toggle_add_mem]
      simp only [List.mem_cons]
      tauto

lemma applySelections_nodup (sels : List VerseRef) :
    (applySelections sels).Nodup :=
  (applySelections_core sels [] List.nodup_nil).1

lemma applySelections_mem (sels : List VerseRef) (x : VerseRef) :
    x ∈ applySelections sels ↔ x ∈ sels := by
  have h := (applySelections_core sels [] List.nodup_nil).2 x
  simpa [applySelections] using h

/-! ## Embedding generation (embeddings.ts, src/unnamed/part_003)

`MODEL_CONFIGS` (lines 14-30) fixes per-model token limits and output
dimensions.  `loadModel` (lines 38-56) caches loaded pipelines in the
module-level `modelCache` map.  `generateEmbedding` (lines 146-155)
routes berit to the Python fallback and the sentence-transformer models
through `generateSentenceTransformerEmbedding` (lines 115-141), which
itself sends hebrew_st to the Python fallback and english_st through the
@xenova/transformers pipeline with `truncation: true` and the model's
`max_length`. -/

/-- The TypeScript union `'hebrew_st' | 'berit' | 'english_st'` of model
keys (`keyof typeof MODEL_CONFIGS`). -/
inductive ModelKey where
  | berit
  | hebrew_st
  | english_st
deriving DecidableEq, Repr

/-- One entry of `MODEL_CONFIGS`. -/
structure ModelConfig where
  modelName : String
  maxLength : Nat
  dimension : Nat
deriving DecidableEq, Repr

/-- `MODEL_CONFIGS` (part_003 lines 14-30). -/
def MODEL_CONFIGS : ModelKey → ModelConfig
  | .berit => { modelName := "gngpostalsrvc/BERiT", maxLength := 128, dimension := 256 }
  | .hebrew_st => { modelName := "odunola/sentence-transformers-bible-reference-final",
                    maxLength := 512, dimension := 768 }
  | .english_st => { modelName := "sentence-transformers/all-mpnet-base-v2",
                     maxLength := 384, dimension := 768 }

section ModelCache

variable {Pipe : Type}

/-- `loadModel` (part_003 lines 38-56) over an explicit cache state (the
module-level `modelCache : Map`).  `pipelineInit` models the external
`pipeline('feature-extraction', config.modelName, ...)` constructor.  The
returned `Nat` counts how many pipeline initializations the call
performed (0 on a cache hit, 1 on a miss). -/
def loadModel (pipelineInit : String → Pipe)
    (cache : List (ModelKey × Pipe)) (k : ModelKey) :
    Pipe × List (ModelKey × Pipe) × Nat :=
  match cache.lookup k with
  | some pipe => (pipe, cache, 0)
  | none =>
      let pipe := pipelineInit (MODEL_CONFIGS k).modelName
      (pipe, (k, pipe) :: cache, 1)

/-- Run a sequence of `loadModel` calls (the requests arriving in one
process), returning the final cache and the list of keys whose call
initialized a pipeline. -/
def runLoads (pipelineInit : String → Pipe)
    (cache : List (ModelKey × Pipe)) :
    List ModelKey → List (ModelKey × Pipe) × List ModelKey
  | [] => (cache, [])
  | k :: rest =>
      let r := loadModel pipelineInit cache k
      let tail := runLoads pipelineInit r.2.1 rest
      (tail.1, (if r.2.2 = 1 then [k] else []) ++ tail.2)

lemma loadModel_cache_mem (pipelineInit : String → Pipe)
    (cache : List (ModelKey × Pipe)) (k : ModelKey) :
    ((loadModel pipelineInit cache k).2.1).lookup k =
      some (loadModel pipelineInit cache k).1 := by
  unfold loadModel
  cases h : cache.lookup k with
  | some pipe => simp [h]
  | none => simp [h, List.lookup]

lemma loadModel_preserves (pipelineInit : String → Pipe)
    (cache : List (ModelKey × Pipe)) (k k' : ModelKey)
    (h : (cache.lookup k').isSome) :
    (((loadModel pipelineInit cache k).2.1).lookup k').isSome := by
  unfold loadModel
  cases hk : cache.lookup k with
  | some pipe => simpa [hk] using h
  | none =>
      by_cases he : k' = k
      · subst he; simp [List.lookup]
      · have : (k' == k) = false := by simp [he]
        simpa [hk, List.lookup, this] using h

/-- Counting lemma: a run initializes key `k` zero times when `k` is
already cached, and at most (exactly) once when `k` occurs among the
calls, never more. -/
lemma runLoads_count (pipelineInit : String → Pipe) (calls : List ModelKey) :
    ∀ cache : List (ModelKey × Pipe), ∀ k : ModelKey,
      ((runLoads pipelineInit cache calls).2.count k) =
        (if (cache.lookup k).isSome then 0
         else if k ∈ calls then 1 else 0) := by
  induction calls with
  | nil => intro cache k; simp [runLoads]
  | cons c rest ih =>
      intro cache k
      unfold runLoads
      cases hc : cache.lookup c with
      | some pipe =>
          simp only [loadModel, hc]
          rw [List.count_append, ih cache k]
          by_cases hck : k = c
          · subst hck
            simp [hc, List.count_nil]
          · simp only [List.count_nil, if_neg, List.mem_cons]
            have : (k ∈ c :: rest) ↔ k ∈ rest := by simp [hck]
            by_cases hkc : (cache.lookup k).isSome <;> simp [hkc, this, hck]
      | none =>
          simp only [loadModel, hc]
          rw [List.count_append, ih ((c, pipelineInit (MODEL_CONFIGS c).modelName) :: cache) k]
          by_cases hck : k = c
          · subst hck
            have hl : (((k, pipelineInit (MODEL_CONFIGS k).modelName) :: cache).lookup k).isSome := by
              simp [List.lookup]
            simp [hc, hl, List.count_cons, List.count_nil]
          · have hb : (k == c) = false := by simp [hck]
            have hl : (((c, pipelineInit (MODEL_CONFIGS c).modelName) :: cache).lookup k) =
                cache.lookup k := by
              simp [List.lookup, hb]
            rw [hl]
            have hmem : (k ∈ c :: rest) ↔ k ∈ rest := by simp [hck]
            by_cases hkc : (cache.lookup k).isSome <;>
              simp [hkc, hmem, List.count_cons, hck]

end ModelCache

/-! ### Call-counting model of generateEmbedding (for retry behavior)

`generateEmbeddingPython` (part_003 lines 61-90) runs the Python script
once via `execFileAsync` and, in the single `catch`, wraps any failure as
`Failed to generate embedding: <message>` and rethrows; there is no retry
loop and no delay.  The english_st path (lines 124-140) calls the loaded
pipeline once.  External executors are modelled as attempt-indexed
outcome families so that a hypothetical retry would be observable: the
n-th invocation for the same request would return `provider ... n`. -/

/-- `generateEmbeddingPython` (part_003 lines 61-90): one `execFileAsync`
invocation of the script; an `.ok` payload is returned as the embedding;
any failure (nonzero exit, bad JSON, `error` field) surfaces once,
wrapped by the `catch` block.  The second component counts script
invocations performed by the call. -/
def generateEmbeddingPython (pythonScript : ModelKey → String → Nat → Except String (List Int))
    (text : String) (modelKey : ModelKey) : Except String (List Int) × Nat :=
  match pythonScript modelKey text 0 with
  | .ok embedding => (.ok embedding, 1)
  | .error e => (.error ("Failed to generate embedding: " ++ e), 1)

/-- `generateBERiTEmbedding` (part_003 lines 96-99). -/
def generateBERiTEmbedding (pythonScript : ModelKey → String → Nat → Except String (List Int))
    (text : String) : Except String (List Int) × Nat :=
  generateEmbeddingPython pythonScript text .berit

/-- `generateHebrewSTEmbedding` (part_003 lines 105-108). -/
def generateHebrewSTEmbedding (pythonScript : ModelKey → String → Nat → Except String (List Int))
    (text : String) : Except String (List Int) × Nat :=
  generateEmbeddingPython pythonScript text .hebrew_st

/-- `generateSentenceTransformerEmbedding` (part_003 lines 115-141) at
the call-counting level: hebrew_st goes to the Python fallback; english_st
invokes the transformers pipeline (`pipeRun`) once. -/
def generateSentenceTransformerEmbeddingAttempts
    (pythonScript : ModelKey → String → Nat → Except String (List Int))
    (pipeRun : String → Nat → Except String (List Int))
    (text : String) (modelKey : ModelKey) : Except String (List Int) × Nat :=
  if modelKey = .hebrew_st then
    generateHebrewSTEmbedding pythonScript text
  else
    match pipeRun text 0 with
    | .ok embedding => (.ok embedding, 1)
    | .error e => (.error e, 1)

/-- `generateEmbedding` (part_003 lines 146-155) at the call-counting
level: berit goes to the BERiT Python fallback, everything else through
`generateSentenceTransformerEmbedding`. -/
def generateEmbeddingAttempts
    (pythonScript : ModelKey → String → Nat → Except String (List Int))
    (pipeRun : String → Nat → Except String (List Int))
    (text : String) (modelKey : ModelKey) : Except String (List Int) × Nat :=
  if modelKey = .berit then
    generateBERiTEmbedding pythonScript text
  else
    generateSentenceTransformerEmbeddingAttempts pythonScript pipeRun text modelKey

/-- The outcome the underlying executor would give on its n-th invocation
for this request: the Python script for berit/hebrew_st, the transformers
pipeline for english_st. -/
def underlyingAttempt
    (pythonScript : ModelKey → String → Nat → Except String (List Int))
    (pipeRun : String → Nat → Except String (List Int))
    (text : String) : ModelKey → Nat → Except String (List Int)
  | .berit, n => pythonScript .berit text n
  | .hebrew_st, n => pythonScript .hebrew_st text n
  | .english_st, n => pipeRun text n

/-- A transient-failure executor: the first invocation fails with a rate
limit, a retry would succeed.  Used to exhibit that `generateEmbedding`
does not retry. -/
def transientFailScript (_modelKey : ModelKey) (_text : String) (attempt : Nat) :
    Except String (List Int) :=
  if attempt = 0 then .error "rate limited" else .ok [1, 2, 3]

/-- A pipeline executor that always succeeds (unused on the berit path of
the counterexample). -/
def alwaysOkPipe (_text : String) (_attempt : Nat) : Except String (List Int) :=
  .ok [4, 5, 6]

/-! ### Value-level model of generateEmbedding (for truncation/dimension)

The per-model external embedding machinery is a tokenizer plus a core
network.  The repository's own `generate_embedding_python.py` is
referenced by part_003 line 62 but is not present under src/. -/

/-- An external embedding model: a tokenizer and the core network mapping
a token sequence to a pooled vector (vector entries abstracted to `Int`;
their numeric values never matter to the claims). -/
structure ExternalModel where
  tokenize : String → List Nat
  core : List Nat → List Int

/-- Modelled from the spec: the @xenova/transformers feature-extraction
pipeline invoked with `truncation: true, max_length` (part_003 lines
129-135) tokenizes the text, cuts the token sequence to `max_length`
tokens (right truncation, excess discarded, no error), and runs the core
network on what remains. -/
def xenovaPipelineCall (M : ExternalModel) (text : String) (maxLength : Nat) : List Int :=
  M.core ((M.tokenize text).take maxLength)

/-- Modelled from the spec: `generate_embedding_python.py` (missing from
src/; invoked by part_003 lines 61-90) tokenizes with `truncation=True`
and the model's configured `max_length`, per the spec's embedding-adapter
contract and the repository's truncation notes, and returns the pooled
vector. -/
def pythonScriptEmbed (models : ModelKey → ExternalModel) (k : ModelKey)
    (text : String) : List Int :=
  (models k).core (((models k).tokenize text).take (MODEL_CONFIGS k).maxLength)

/-- `generateSentenceTransformerEmbedding` (part_003 lines 115-141) at
the value level: hebrew_st through the Python fallback, english_st
through the pipeline with `max_length: config.maxLength`. -/
def generateSentenceTransformerEmbeddingVec (models : ModelKey → ExternalModel)
    (text : String) (modelKey : ModelKey) : List Int :=
  if modelKey = .hebrew_st then
    pythonScriptEmbed models .hebrew_st text
  else
    xenovaPipelineCall (models modelKey) text (MODEL_CONFIGS modelKey).maxLength

/-- `generateEmbedding` (part_003 lines 146-155) at the value level. -/
def generateEmbeddingVec (models : ModelKey → ExternalModel)
    (text : String) (modelKey : ModelKey) : List Int :=
  if modelKey = .berit then
    pythonScriptEmbed models .berit text
  else
    generateSentenceTransformerEmbeddingVec models text modelKey

/-- A concrete external model family meeting the documented fixed output
dimensions, used by witnesses. -/
def fixedDimModels : ModelKey → ExternalModel :=
  fun k => { tokenize := fun s => List.replicate s.length 0,
             core := fun _ts => List.replicate (MODEL_CONFIGS k).dimension 0 }

/-! ## Result rendering

`formatVerses` and `displayResults` of the avraham-dense page script
(part_006 lines 789-846 and 860-998, identical rendering logic in
`avraham.js`), and `displayResults` of `main-dense-2.js` (lines 730-763). -/

/-- A result's `verses` payload as `formatVerses` receives it: `.ok l`
models a successfully parsed JSON array (a non-array JSON value behaves
as the empty array: both return the empty string); `.error raw` models a
`JSON.parse` exception, whose `catch` returns `String(versesStr)`, the
raw field text. -/
def VersesPayload : Type := Except String (List VerseRef)

/-- The `"chapter:verse"` rendering of one reference. -/
def verseKeyStr (v : VerseRef) : String :=
  toString v.chapter ++ ":" ++ toString v.verse

/-- The grouping loop of `formatVerses` (part_006 lines 806-824): walk the
sorted list, extending the current group while the next verse is in the
same chapter with the next verse number, otherwise starting a new group. -/
def groupConsecutiveGo (prev : VerseRef) (currentGroup : List VerseRef) :
    List VerseRef → List (List VerseRef)
  | [] => [currentGroup]
  | curr :: rest =>
      if prev.chapter = curr.chapter ∧ curr.verse = prev.verse + 1 then
        groupConsecutiveGo curr (currentGroup ++ [curr]) rest
      else
        currentGroup :: groupConsecutiveGo curr [curr] rest

/-- Group a sorted verse list into runs of consecutive verses. -/
def groupConsecutive : List VerseRef → List (List VerseRef)
  | [] => []
  | v :: rest => groupConsecutiveGo v [v] rest

/-- Format one group (part_006 lines 827-840): single verse as `c:v`, a
same-chapter run as `c:v1-v2`, a mixed-chapter group joined by commas. -/
def formatGroup : List VerseRef → String
  | [] => ""
  | [v] => verseKeyStr v
  | v :: w :: rest =>
      if (v :: w :: rest).all (fun x => x.chapter == v.chapter) then
        toString v.chapter ++ ":" ++ toString v.verse ++ "-" ++
          toString ((rest.getLastD w).verse)
      else
        String.intercalate ", " ((v :: w :: rest).map verseKeyStr)

/-- `formatVerses` (part_006 lines 789-846): parse, sort ascending by
(chapter, verse), group consecutive runs, format, join with commas; a
non-array or empty array gives the empty string; a parse exception falls
back to the raw field text. -/
def formatVerses (verses : VersesPayload) : String :=
  match verses with
  | .error raw => raw
  | .ok l =>
      if l.isEmpty then ""
      else
        String.intercalate ", "
          ((groupConsecutive (List.insertionSort verseLE l)).map formatGroup)

/-- A backend hit as `displayResults` consumes it.  `scoreText` carries
the already-formatted `score.toFixed(4)` display (floating-point
formatting is outside the modelled claims). -/
structure SearchHit where
  title : String
  id : String
  verses : VersesPayload
  scoreText : String
  text : String

/-- JS truthy-or on strings: `a || b` picks `b` when `a` is empty. -/
def jsOr (a b : String) : String := if a = "" then b else a

/-- `parseInt(top_k) || 10` (part_006 line 863): a NaN (`none`) or zero
parse falls back to 10. -/
def effectiveTopK (topKRaw : Option Nat) : Nat :=
  match topKRaw with
  | some n => if n = 0 then 10 else n
  | none => 10

/-- One rendered result block of the avraham-dense `displayResults`. -/
structure RenderedItem where
  heading : String
  showsRating : Bool
  versesShown : Bool
  versesText : String
  scoreText : String
  bodyText : String

/-- The rendered results container of the avraham-dense `displayResults`. -/
structure RenderedResults where
  noResults : Bool
  feedbackShown : Bool
  items : List RenderedItem

/-- The result loop of `displayResults` (part_006 lines 917-953), indexed
from 0: a rating dropdown only on the first five results when the
feedback section is shown; the verses block only when `showVerses` holds
and `formatVerses` is nonempty. -/
def renderItems (showFeedback showVerses : Bool) :
    Nat → List SearchHit → List RenderedItem
  | _, [] => []
  | i, r :: rest =>
      { heading := jsOr r.title r.id,
        showsRating := showFeedback && decide (i < 5),
        versesShown := showVerses && decide (formatVerses r.verses ≠ ""),
        versesText := if showVerses && decide (formatVerses r.verses ≠ "") then
            formatVerses r.verses else "",
        scoreText := r.scoreText,
        bodyText := r.text } :: renderItems showFeedback showVerses (i + 1) rest

/-- `displayResults` of the avraham-dense page script (part_006 lines
860-998): early "No results" return on an empty list; `showVerses` only
at pericope level (line 879); the feedback section only on the dense page
with `top_k >= 5` (line 882). -/
def displayResults (isDense : Bool) (recordLevel : String)
    (topKRaw : Option Nat) (results : List SearchHit) : RenderedResults :=
  let topK := effectiveTopK topKRaw
  if results.isEmpty then
    { noResults := true, feedbackShown := false, items := [] }
  else
    let showVerses := decide (recordLevel = "pericope")
    let showFeedback := isDense && decide (topK ≥ 5)
    { noResults := false, feedbackShown := showFeedback,
      items := renderItems showFeedback showVerses 0 results }

/-- A backend hit as `main-dense-2.js`'s `displayResults` consumes it:
the verse range arrives preformatted in `verse_display`. -/
structure SearchHit2 where
  title : String
  id : String
  verse_display : String
  scoreText : String
  text : String

/-- One rendered result block of `main-dense-2.js`'s `displayResults`. -/
structure RenderedItem2 where
  heading : String
  versesShown : Bool
  versesText : String

/-- `displayResults` of `main-dense-2.js` (lines 730-763): `showVerses`
for every chunking level except verse (line 743); the verses block
requires a truthy (nonempty) `verse_display` (line 748). -/
def displayResults2 (chunkingLevel : String) (results : List SearchHit2) :
    Bool × List RenderedItem2 :=
  if results.isEmpty then
    (true, [])
  else
    let showVerses := decide (chunkingLevel ≠ "verse")
    (false, results.map (fun r =>
      { heading := jsOr r.title r.id,
        versesShown := showVerses && decide (r.verse_display ≠ ""),
        versesText := if showVerses && decide (r.verse_display ≠ "") then
            r.verse_display else "" }))

/-! ## Feedback submission

`updateSubmitButtonState` (part_006 lines 1000-1049) and
`handleFeedbackSubmit` (lines 1051-1138) with the reset in
`performSearch` (lines 685-707), as a state machine over the module-level
flags. -/

/-- A rating can be absent (`resultRatings[index] === undefined`) or the
blank option; only a present non-blank rating counts
(part_006 line 1036). -/
def ratingFilled : Option String → Bool
  | some s => decide (s ≠ "")
  | none => false

/-- The `top5Rated` check (part_006 lines 1035-1036): every index below
`min 5 currentResults.length` carries a non-blank rating. -/
def top5Rated (numResults : Nat) (ratings : Nat → Option String) : Bool :=
  (List.range (min 5 numResults)).all (fun i => ratingFilled (ratings i))

/-- The submit button after `updateSubmitButtonState`: disabled flag,
whether it was transformed into the results-page link, and its tooltip. -/
structure SubmitButtonState where
  disabled : Bool
  isLink : Bool
  title : String
deriving DecidableEq, Repr

/-- `updateSubmitButtonState` (part_006 lines 1000-1049): once feedback
is submitted the button becomes an enabled navigation link (its submit
handler removed); before submission it is enabled exactly when the top
five ratings are filled. -/
def updateSubmitButtonState (feedbackSubmitted : Bool) (numResults : Nat)
    (ratings : Nat → Option String) : SubmitButtonState :=
  if feedbackSubmitted then
    { disabled := false, isLink := true, title := "View all feedback results" }
  else if top5Rated numResults ratings then
    { disabled := false, isLink := false, title := "Submit your feedback" }
  else
    { disabled := true, isLink := false, title := "Must rank the top 5 to submit" }

/-- The feedback flags and counters of the dense page: the module-level
`feedbackSubmitted` and `isSubmitting` booleans, the submit button's
disabled flag, whether Firestore is available (`db !== null`), and the
number of feedback documents written so far. -/
structure FeedbackState where
  feedbackSubmitted : Bool
  isSubmitting : Bool
  btnDisabled : Bool
  dbAvailable : Bool
  savedDocs : Nat
deriving DecidableEq, Repr

/-- Events on the feedback machinery: a click on the submit button
(`saveOk` says whether the Firestore `add` would succeed), a rating
change re-running `updateSubmitButtonState` (`complete` says whether the
top five are now all filled), and a new search (`performSearch`). -/
inductive FeedbackEvent where
  | click (saveOk : Bool)
  | ratingsChanged (complete : Bool)
  | newSearch
deriving DecidableEq, Repr

/-- `handleFeedbackSubmit` (part_006 lines 1051-1138): bail out if the
button is disabled, a submission is in flight, or feedback was already
submitted; otherwise set `isSubmitting`, disable the button, and attempt
the save.  On success (or with Firestore unavailable, when the save is
skipped) mark `feedbackSubmitted` and turn the button into the enabled
link; on a save failure reset `isSubmitting` and re-enable the button so
the same feedback can be retried. -/
def handleFeedbackSubmit (saveOk : Bool) (s : FeedbackState) : FeedbackState :=
  if s.btnDisabled || s.isSubmitting || s.feedbackSubmitted then s
  else if s.dbAvailable && !saveOk then
    { s with isSubmitting := false, btnDisabled := false }
  else
    { s with isSubmitting := true, feedbackSubmitted := true,
             btnDisabled := false,
             savedDocs := s.savedDocs + (if s.dbAvailable then 1 else 0) }

/-- One step of the feedback state machine.  A disabled button fires no
click handler; a rating change reruns `updateSubmitButtonState` (link
branch when already submitted, `top5Rated` gate otherwise); a new search
resets the flags (part_006 lines 685-707) and re-renders the button
disabled with cleared ratings. -/
def feedbackStep (s : FeedbackState) : FeedbackEvent → FeedbackState
  | .click saveOk => if s.btnDisabled then s else handleFeedbackSubmit saveOk s
  | .ratingsChanged complete =>
      if s.feedbackSubmitted then { s with btnDisabled := false }
      else { s with btnDisabled := !complete }
  | .newSearch =>
      { s with feedbackSubmitted := false, isSubmitting := false,
               btnDisabled := true }

/-- Run a sequence of feedback events. -/
def runFeedback (s : FeedbackState) : List FeedbackEvent → FeedbackState
  | [] => s
  | e :: rest => runFeedback (feedbackStep s e) rest

/-! ## Claim theorems for the validation layer -/

/-- Looking a record level up in the specification's matrix agrees with
the source's `VALID_COMBINATIONS` object lookup. -/
lemma specMatrix_lookup_eq (r : String) :
    specCompatibilityMatrix.lookup r = VALID_COMBINATIONS r := by
  by_cases h1 : r = "pericope"
  · subst h1; decide
  by_cases h2 : r = "verse"
  · subst h2; decide
  by_cases h3 : r = "agentic_berit"
  · subst h3; decide
  by_cases h4 : r = "agentic_hebrew_st"
  · subst h4; decide
  by_cases h5 : r = "agentic_english_st"
  · subst h5; decide
  have b1 : (r == "pericope") = false := by simp [h1]
  have b2 : (r == "verse") = false := by simp [h2]
  have b3 : (r == "agentic_berit") = false := by simp [h3]
  have b4 : (r == "agentic_hebrew_st") = false := by simp [h4]
  have b5 : (r == "agentic_english_st") = false := by simp [h5]
  unfold specCompatibilityMatrix VALID_COMBINATIONS
  simp [List.lookup, b1, b2, b3, b4, b5, h1, h2, h3, h4, h5]

/-- C1: for every pair (model_name, record_level), the search validation
check succeeds iff record_level is a key of the compatibility matrix and
model_name is a member of its permitted set (as the matrix is given in the
specification); in particular (berit, pericope) is rejected, and on that
rejection the button tooltip names the valid alternative models for the
record level. -/
theorem C1_compatibility_matrix :
    (∀ m r : String, isValidCombination m r = true ↔ specCompatible m r) ∧
    isValidCombination "berit" "pericope" = false ∧
    (validateSearchButton "berit" "pericope" (some [⟨1, 1⟩])).disabled = true ∧
    (validateSearchButton "berit" "pericope" (some [⟨1, 1⟩])).title =
      "Invalid combination. For pericope, valid models are: hebrew_st, english_st" := by
  refine ⟨fun m r => ?_, by decide, by decide, by decide⟩
  unfold specCompatible
  rw [specMatrix_lookup_eq]
  cases hv : VALID_COMBINATIONS r with
  | none => simp [isValidCombination, hv]
  | some models => simp [isValidCombination, hv]

/-- C2: whenever the `search_verses` field parses to an empty array, or
does not parse as JSON at all, the search button is disabled and a click
issues no search request, so the backend embedder is never invoked (call
count zero). -/
theorem C2_empty_verses_blocked (m r tk : String)
    (parsed : Option (List VerseRef))
    (h : parsed = none ∨ parsed = some []) :
    (validateSearchButton m r parsed).disabled = true ∧
    clickSearch { modelName := m, recordLevel := r, topK := tk,
                  searchVersesParse := parsed } = none ∧
    embedderCallCount { modelName := m, recordLevel := r, topK := tk,
                        searchVersesParse := parsed } = 0 := by
  have hv : hasVersesCheck parsed = false := by
    rcases h with h | h <;> simp [h, hasVersesCheck]
  have hd : (validateSearchButton m r parsed).disabled = true := by
    unfold validateSearchButton
    simp only [hv, Bool.and_false]
    by_cases hi : isValidCombination m r <;> simp [hi]
  refine ⟨hd, ?_, ?_⟩ <;> simp [clickSearch, embedderCallCount, hd]

/-- C2 witness: the empty parsed verse list blocks the search for a
concrete form state. -/
theorem C2_empty_verses_blocked_witness :
    (validateSearchButton "english_st" "verse" (some [])).disabled = true ∧
    clickSearch { modelName := "english_st", recordLevel := "verse", topK := "10",
                  searchVersesParse := some [] } = none ∧
    embedderCallCount { modelName := "english_st", recordLevel := "verse", topK := "10",
                        searchVersesParse := some [] } = 0 :=
  C2_empty_verses_blocked "english_st" "verse" "10" (some []) (Or.inr rfl)

/-- C6: `performSearch` validates the (model, record_level) combination
before any network work: when the combination is not in the compatibility
matrix it returns the invalid-combination error message and the fetch to
the search endpoint is never issued. -/
theorem C6_invalid_combo_no_fetch (st : FormState)
    (h : isValidCombination st.modelName st.recordLevel = false) :
    performSearch st = .invalidCombo ("Invalid combination: " ++ st.modelName ++
      " cannot be used with " ++ st.recordLevel) ∧
    fetchIssued (performSearch st) = false := by
  unfold performSearch
  simp [h, fetchIssued]

/-- C6 witness: the (berit, pericope) request returns the error message
and issues no fetch. -/
theorem C6_invalid_combo_no_fetch_witness :
    performSearch { modelName := "berit", recordLevel := "pericope", topK := "10",
                    searchVersesParse := some [⟨1, 1⟩] } =
      .invalidCombo "Invalid combination: berit cannot be used with pericope" ∧
    fetchIssued (performSearch { modelName := "berit", recordLevel := "pericope",
                                 topK := "10",
                                 searchVersesParse := some [⟨1, 1⟩] }) = false := by
  have h := C6_invalid_combo_no_fetch
    { modelName := "berit", recordLevel := "pericope", topK := "10",
      searchVersesParse := some [⟨1, 1⟩] } (by decide)
  simpa using h

/-- C3: the verse list written to the `search_verses` field is
duplicate-free and sorted ascending by (chapter, verse), and it depends
only on the set of selected verses: two selection histories selecting the
same verses (in any order, with any repetitions) yield the identical
list. -/
theorem C3_verse_list_canonical (sels1 sels2 : List VerseRef)
    (h : ∀ v, v ∈ sels1 ↔ v ∈ sels2) :
    List.Sorted verseLE (updateSearchVersesField (applySelections sels1)) ∧
    (updateSearchVersesField (applySelections sels1)).Nodup ∧
    updateSearchVersesField (applySelections sels1) =
      updateSearchVersesField (applySelections sels2) := by
  have hs1 : List.Sorted verseLE (updateSearchVersesField (applySelections sels1)) :=
    List.sorted_insertionSort verseLE _
  have hs2 : List.Sorted verseLE (updateSearchVersesField (applySelections sels2)) :=
    List.sorted_insertionSort verseLE _
  have hperm1 : List.Perm (updateSearchVersesField (applySelections sels1)) (applySelections sels1) :=
    List.perm_insertionSort verseLE _
  have hperm2 : List.Perm (updateSearchVersesField (applySelections sels2)) (applySelections sels2) :=
    List.perm_insertionSort verseLE _
  have hall : List.Perm (applySelections sels1) (applySelections sels2) := by
    rw [List.perm_ext_iff_of_nodup (applySelections_nodup sels1)
      (applySelections_nodup sels2)]
    intro a
    rw [applySelections_mem, applySelections_mem]
    exact h a
  refine ⟨hs1, hperm1.nodup_iff.mpr (applySelections_nodup sels1), ?_⟩
  exact List.eq_of_perm_of_sorted (hperm1.trans (hall.trans hperm2.symm)) hs1 hs2

/-- C3 witness: selecting 2:3 then 1:1 twice gives the same sorted,
duplicate-free field content as selecting 1:1 then 2:3. -/
theorem C3_verse_list_canonical_witness :
    List.Sorted verseLE
      (updateSearchVersesField (applySelections [⟨2, 3⟩, ⟨1, 1⟩, ⟨1, 1⟩])) ∧
    (updateSearchVersesField (applySelections [⟨2, 3⟩, ⟨1, 1⟩, ⟨1, 1⟩])).Nodup ∧
    updateSearchVersesField (applySelections [⟨2, 3⟩, ⟨1, 1⟩, ⟨1, 1⟩]) =
      updateSearchVersesField (applySelections [⟨1, 1⟩, ⟨2, 3⟩]) := by
  refine C3_verse_list_canonical [⟨2, 3⟩, ⟨1, 1⟩, ⟨1, 1⟩] [⟨1, 1⟩, ⟨2, 3⟩] ?_
  intro v
  simp only [List.mem_cons, List.not_mem_nil, or_false]
  tauto

/-- C7: the embedding model cache is lazily initialized and process-wide:
a call for a cached key returns the cached pipeline unchanged with no
re-initialization; every call leaves the returned pipeline stored under
its key; and over any sequence of requests starting from the empty cache,
each model key's pipeline is initialized at most once. -/
theorem C7_load_model_cached (Pipe : Type) (pipelineInit : String → Pipe) :
    (∀ (cache : List (ModelKey × Pipe)) (k : ModelKey) (p : Pipe),
      cache.lookup k = some p →
        loadModel pipelineInit cache k = (p, cache, 0)) ∧
    (∀ (cache : List (ModelKey × Pipe)) (k : ModelKey),
      ((loadModel pipelineInit cache k).2.1).lookup k =
        some (loadModel pipelineInit cache k).1) ∧
    (∀ (calls : List ModelKey) (k : ModelKey),
      ((runLoads pipelineInit ([] : List (ModelKey × Pipe)) calls).2.count k) ≤ 1) := by
  refine ⟨?_, loadModel_cache_mem pipelineInit, ?_⟩
  · intro cache k p h
    unfold loadModel
    simp [h]
  · intro calls k
    rw [runLoads_count]
    split_ifs <;> simp

/-- C7 witness: a concrete cache hit returns the stored pipeline with no
initialization, and a repeated request initializes english_st only once. -/
theorem C7_load_model_cached_witness :
    loadModel (fun s => s) [(ModelKey.berit, "p0")] ModelKey.berit =
      ("p0", [(ModelKey.berit, "p0")], 0) ∧
    ((runLoads (fun s => s) ([] : List (ModelKey × String))
      [ModelKey.english_st, ModelKey.english_st]).2.count ModelKey.english_st) ≤ 1 :=
  ⟨(C7_load_model_cached String (fun s => s)).1 [(ModelKey.berit, "p0")]
     ModelKey.berit "p0" (by decide),
   (C7_load_model_cached String (fun s => s)).2.2
     [ModelKey.english_st, ModelKey.english_st] ModelKey.english_st⟩

/-- C4 counterexample: the claim that `generateEmbedding` retries a
transiently failed provider call once before propagating is false.  With
an executor whose first invocation is rate-limited and whose second would
succeed, `generateEmbedding` performs exactly one invocation (never the
claimed two) and surfaces the wrapped error even though the retry would
have succeeded. -/
theorem C4_retry_counterexample :
    (generateEmbeddingAttempts transientFailScript alwaysOkPipe "text" .berit).2 = 1 ∧
    (generateEmbeddingAttempts transientFailScript alwaysOkPipe "text" .berit).1 =
      .error "Failed to generate embedding: rate limited" ∧
    underlyingAttempt transientFailScript alwaysOkPipe "text" .berit 1 = .ok [1, 2, 3] ∧
    ¬((generateEmbeddingAttempts transientFailScript alwaysOkPipe "text" .berit).2 = 2) := by
  refine ⟨by decide, ?_, by rfl, by decide⟩
  rfl

/-- C4 amended: `generateEmbedding` never retries: for every executor
family, text and model key it performs exactly one underlying invocation,
and its outcome succeeds exactly when that first invocation succeeds (a
failure is propagated immediately, with the Python paths wrapping the
message as `Failed to generate embedding: ...`). -/
theorem C4_no_retry_single_invocation
    (pythonScript : ModelKey → String → Nat → Except String (List Int))
    (pipeRun : String → Nat → Except String (List Int))
    (text : String) (modelKey : ModelKey) :
    (generateEmbeddingAttempts pythonScript pipeRun text modelKey).2 = 1 ∧
    (generateEmbeddingAttempts pythonScript pipeRun text modelKey).1.isOk =
      (underlyingAttempt pythonScript pipeRun text modelKey 0).isOk := by
  cases modelKey <;>
    simp only [generateEmbeddingAttempts, generateBERiTEmbedding,
      generateSentenceTransformerEmbeddingAttempts, generateHebrewSTEmbedding,
      generateEmbeddingPython, underlyingAttempt, if_true, if_false,
      reduceCtorEq, reduceIte] <;>
    [cases h : pythonScript ModelKey.berit text 0;
     cases h : pythonScript ModelKey.hebrew_st text 0;
     cases h : pipeRun text 0] <;>
    simp [h, Except.isOk, Except.toBool]

/-- C5: for every external model family meeting the documented fixed
output dimensions, every text and every model key, `generateEmbedding`
embeds exactly the token sequence truncated to the model's configured
maximum length (berit 128, hebrew_st 512, english_st 384) — texts
agreeing on that prefix embed identically, truncation is never an error —
and the result has the model's fixed dimensionality (berit 256, hebrew_st
768, english_st 768). -/
theorem C5_truncation_and_dimension
    (models : ModelKey → ExternalModel) (text : String) (modelKey : ModelKey)
    (hdim : ∀ (k : ModelKey) (ts : List Nat),
      ((models k).core ts).length = (MODEL_CONFIGS k).dimension) :
    generateEmbeddingVec models text modelKey =
      (models modelKey).core
        (((models modelKey).tokenize text).take (MODEL_CONFIGS modelKey).maxLength) ∧
    (generateEmbeddingVec models text modelKey).length =
      (MODEL_CONFIGS modelKey).dimension ∧
    (∀ text2 : String,
      ((models modelKey).tokenize text).take (MODEL_CONFIGS modelKey).maxLength =
        ((models modelKey).tokenize text2).take (MODEL_CONFIGS modelKey).maxLength →
      generateEmbeddingVec models text modelKey =
        generateEmbeddingVec models text2 modelKey) ∧
    (MODEL_CONFIGS ModelKey.berit).maxLength = 128 ∧
    (MODEL_CONFIGS ModelKey.hebrew_st).maxLength = 512 ∧
    (MODEL_CONFIGS ModelKey.english_st).maxLength = 384 ∧
    (MODEL_CONFIGS ModelKey.berit).dimension = 256 ∧
    (MODEL_CONFIGS ModelKey.hebrew_st).dimension = 768 ∧
    (MODEL_CONFIGS ModelKey.english_st).dimension = 768 := by
  have key : ∀ t : String, generateEmbeddingVec models t modelKey =
      (models modelKey).core
        (((models modelKey).tokenize t).take (MODEL_CONFIGS modelKey).maxLength) := by
    intro t
    cases modelKey <;>
      simp [generateEmbeddingVec, generateSentenceTransformerEmbeddingVec,
        pythonScriptEmbed, xenovaPipelineCall]
  refine ⟨key text, ?_, ?_, by decide, by decide, by decide, by decide, by decide, by decide⟩
  · rw [key text]; exact hdim modelKey _
  · intro text2 hpre
    rw [key text, key text2, hpre]

/-- C5 witness: with a concrete fixed-dimension model family, a berit
embedding of a concrete text has length 256 and a hebrew_st embedding has
the truncation property at a concrete pair of texts. -/
theorem C5_truncation_and_dimension_witness :
    (generateEmbeddingVec fixedDimModels "In the beginning" ModelKey.berit).length = 256 ∧
    (MODEL_CONFIGS ModelKey.english_st).maxLength = 384 := by
  have hdim : ∀ (k : ModelKey) (ts : List Nat),
      ((fixedDimModels k).core ts).length = (MODEL_CONFIGS k).dimension := by
    intro k ts
    cases k <;> simp [fixedDimModels]
  have h := C5_truncation_and_dimension fixedDimModels "In the beginning"
    ModelKey.berit hdim
  exact ⟨h.2.1, h.2.2.2.2.2.1⟩

/-- The verses-shown flags of the rendered items are pointwise determined
by `showVerses` and the formatted verses of each hit. -/
lemma renderItems_versesShown (showFeedback showVerses : Bool) :
    ∀ (i : Nat) (rs : List SearchHit),
      (renderItems showFeedback showVerses i rs).map (fun it => it.versesShown) =
        rs.map (fun r => showVerses && decide (formatVerses r.verses ≠ "")) := by
  intro i rs
  induction rs generalizing i with
  | nil => simp [renderItems]
  | cons r rest ih => simp [renderItems, ih]

/-- C8 counterexample: the claim that verse-range metadata is included at
every non-verse record level fails on the avraham-dense renderer: at the
agentic_berit level a result with a nonempty formatted verse range is
rendered without the verses block. -/
theorem C8_verse_metadata_counterexample :
    formatVerses (Except.ok [⟨1, 1⟩, ⟨1, 2⟩] : VersesPayload) = "1:1-2" ∧
    ((displayResults true "agentic_berit" (some 10)
        [{ title := "t", id := "r1", verses := Except.ok [⟨1, 1⟩, ⟨1, 2⟩],
           scoreText := "0.1234", text := "body" }]).items.map
      (fun it => it.versesShown)) = [false] := by
  constructor
  · rfl
  · rfl

/-- C8 amended: in `main-dense-2.js` verse-range metadata is omitted
exactly at verse chunking level (shown otherwise whenever the result has
a nonempty `verse_display`); in the avraham/avraham-dense renderer it is
shown only at pericope level (with a nonempty formatted range) and
omitted at verse and at all agentic levels; in both renderers, at verse
granularity no result ever displays a verse range. -/
theorem C8_verse_metadata_amended :
    (∀ (isDense : Bool) (recordLevel : String) (topKRaw : Option Nat)
       (results : List SearchHit), results ≠ [] →
      ((displayResults isDense recordLevel topKRaw results).items.map
          (fun it => it.versesShown)) =
        results.map (fun r =>
          decide (recordLevel = "pericope") && decide (formatVerses r.verses ≠ ""))) ∧
    (∀ (chunkingLevel : String) (results : List SearchHit2), results ≠ [] →
      ((displayResults2 chunkingLevel results).2.map (fun it => it.versesShown)) =
        results.map (fun r =>
          decide (chunkingLevel ≠ "verse") && decide (r.verse_display ≠ ""))) ∧
    (∀ (isDense : Bool) (topKRaw : Option Nat) (results : List SearchHit)
       (it : RenderedItem),
      it ∈ (displayResults isDense "verse" topKRaw results).items →
        it.versesShown = false) ∧
    (∀ (results : List SearchHit2) (it : RenderedItem2),
      it ∈ (displayResults2 "verse" results).2 → it.versesShown = false) := by
  have h1 : ∀ (isDense : Bool) (recordLevel : String) (topKRaw : Option Nat)
      (results : List SearchHit), results ≠ [] →
      ((displayResults isDense recordLevel topKRaw results).items.map
          (fun it => it.versesShown)) =
        results.map (fun r =>
          decide (recordLevel = "pericope") && decide (formatVerses r.verses ≠ "")) := by
    intro isDense recordLevel topKRaw results hne
    unfold displayResults
    rw [if_neg (by simpa using hne)]
    exact renderItems_versesShown _ _ 0 results
  have h2 : ∀ (chunkingLevel : String) (results : List SearchHit2), results ≠ [] →
      ((displayResults2 chunkingLevel results).2.map (fun it => it.versesShown)) =
        results.map (fun r =>
          decide (chunkingLevel ≠ "verse") && decide (r.verse_display ≠ "")) := by
    intro chunkingLevel results hne
    unfold displayResults2
    rw [if_neg (by simpa using hne)]
    simp
  refine ⟨h1, h2, ?_, ?_⟩
  · intro isDense topKRaw results it hmem
    rcases results with _ | ⟨r, rest⟩
    · simp [displayResults] at hmem
    · have := h1 isDense "verse" topKRaw (r :: rest) (by simp)
      have hin : it.versesShown ∈
          ((displayResults isDense "verse" topKRaw (r :: rest)).items.map
            (fun it => it.versesShown)) := List.mem_map_of_mem _ hmem
      rw [this] at hin
      simp only [List.mem_map] at hin
      obtain ⟨x, -, hx⟩ := hin
      rw [← hx]
      simp
  · intro results it hmem
    rcases results with _ | ⟨r, rest⟩
    · simp [displayResults2] at hmem
    · have := h2 "verse" (r :: rest) (by simp)
      have hin : it.versesShown ∈
          ((displayResults2 "verse" (r :: rest)).2.map (fun it => it.versesShown)) :=
        List.mem_map_of_mem _ hmem
      rw [this] at hin
      simp only [List.mem_map] at hin
      obtain ⟨x, -, hx⟩ := hin
      rw [← hx]
      simp

/-- C8 witness: concrete renderings at pericope, agentic and verse
levels in both renderers. -/
theorem C8_verse_metadata_amended_witness :
    ((displayResults true "pericope" (some 10)
        [{ title := "t", id := "r1", verses := Except.ok [⟨1, 1⟩, ⟨1, 2⟩],
           scoreText := "0.1234", text := "body" }]).items.map
      (fun it => it.versesShown)) = [true] ∧
    ((displayResults2 "pericope"
        [{ title := "t", id := "r1", verse_display := "1:1-2",
           scoreText := "0.1234", text := "body" }]).2.map
      (fun it => it.versesShown)) = [true] ∧
    ((displayResults2 "verse"
        [{ title := "t", id := "r1", verse_display := "1:1-2",
           scoreText := "0.1234", text := "body" }]).2.map
      (fun it => it.versesShown)) = [false] := by
  refine ⟨?_, ?_, ?_⟩
  · rw [C8_verse_metadata_amended.1 true "pericope" (some 10)
      [{ title := "t", id := "r1", verses := Except.ok [⟨1, 1⟩, ⟨1, 2⟩],
         scoreText := "0.1234", text := "body" }] (by simp)]
    rfl
  · rw [C8_verse_metadata_amended.2.1 "pericope"
      [{ title := "t", id := "r1", verse_display := "1:1-2",
         scoreText := "0.1234", text := "body" }] (by simp)]
    rfl
  · rw [C8_verse_metadata_amended.2.1 "verse"
      [{ title := "t", id := "r1", verse_display := "1:1-2",
         scoreText := "0.1234", text := "body" }] (by simp)]
    rfl

/-- C9: the feedback-rating interface is rendered only on the dense
search page with requested top_k at least 5; before submission the Submit
button is enabled only when every one of the first min(5, number of
results) results carries a non-blank rating, and any blank rating among
those makes submission impossible (button disabled). -/
theorem C9_feedback_gating :
    (∀ (isDense : Bool) (recordLevel : String) (topKRaw : Option Nat)
       (results : List SearchHit),
      (displayResults isDense recordLevel topKRaw results).feedbackShown = true →
        isDense = true ∧ 5 ≤ effectiveTopK topKRaw) ∧
    (∀ (numResults : Nat) (ratings : Nat → Option String),
      (updateSubmitButtonState false numResults ratings).disabled = false →
        ∀ i, i < min 5 numResults → ratingFilled (ratings i) = true) ∧
    (∀ (numResults : Nat) (ratings : Nat → Option String) (i : Nat),
      i < min 5 numResults → ratingFilled (ratings i) = false →
        (updateSubmitButtonState false numResults ratings).disabled = true) := by
  refine ⟨?_, ?_, ?_⟩
  · intro isDense recordLevel topKRaw results h
    unfold displayResults at h
    by_cases he : results.isEmpty
    · simp [he] at h
    · simp only [he, if_false] at h
      simpa using h
  · intro numResults ratings h
    unfold updateSubmitButtonState at h
    by_cases ht : top5Rated numResults ratings
    · intro i hi
      have := (List.all_eq_true.mp ht) i (by simpa using hi)
      simpa using this
    · simp [ht] at h
  · intro numResults ratings i hi hblank
    unfold updateSubmitButtonState
    have ht : top5Rated numResults ratings = false := by
      unfold top5Rated
      rw [List.all_eq_false]
      exact ⟨i, by simpa using hi, by simp [hblank]⟩
    simp [ht]

/-- C9 witness: with five results and a blank rating at index 2, the
Submit button is disabled; with the dense page and top_k 10, a rendered
feedback section implies top_k at least 5. -/
theorem C9_feedback_gating_witness :
    (updateSubmitButtonState false 5
      (fun i => if i = 2 then some "" else some "5")).disabled = true ∧
    (true = true ∧ 5 ≤ effectiveTopK (some 10)) := by
  constructor
  · exact C9_feedback_gating.2.2 5 (fun i => if i = 2 then some "" else some "5")
      2 (by decide) (by decide)
  · exact C9_feedback_gating.1 true "verse" (some 10)
      [{ title := "t", id := "r1", verses := Except.ok [⟨1, 1⟩],
         scoreText := "0.1", text := "b" }] (by rfl)

/-- Any single non-newSearch event neither decreases the submitted flag
nor increases the written-document budget `savedDocs + (1 if not yet
submitted)`. -/
lemma feedbackStep_budget (s : FeedbackState) (e : FeedbackEvent)
    (h : e ≠ .newSearch) :
    (feedbackStep s e).savedDocs +
        (if (feedbackStep s e).feedbackSubmitted then 0 else 1) ≤
      s.savedDocs + (if s.feedbackSubmitted then 0 else 1) := by
  cases e with
  | click saveOk =>
      simp only [feedbackStep]
      by_cases hd : s.btnDisabled = true
      · simp [hd]
      · simp only [if_neg hd]
        unfold handleFeedbackSubmit
        by_cases hg : (s.btnDisabled || s.isSubmitting || s.feedbackSubmitted) = true
        · simp only [if_pos hg]
          exact le_refl _
        · simp only [if_neg hg]
          have hflags : (s.btnDisabled = false ∧ s.isSubmitting = false) ∧
              s.feedbackSubmitted = false := by
            simpa [not_or] using hg
          by_cases hdb : (s.dbAvailable && !saveOk) = true
          · simp only [if_pos hdb]
            simp [hflags.2]
          · simp only [if_neg hdb]
            simp only [hflags.2, Bool.false_eq_true, if_false, if_true]
            split_ifs <;> omega
  | ratingsChanged complete =>
      simp only [feedbackStep]
      split_ifs <;> simp
  | newSearch => exact absurd rfl h

/-- Over a run without a new search, the written-document budget never
increases. -/
lemma runFeedback_budget :
    ∀ (events : List FeedbackEvent) (s : FeedbackState),
      FeedbackEvent.newSearch ∉ events →
      (runFeedback s events).savedDocs +
          (if (runFeedback s events).feedbackSubmitted then 0 else 1) ≤
        s.savedDocs + (if s.feedbackSubmitted then 0 else 1) := by
  intro events
  induction events with
  | nil => intro s _; simp [runFeedback]
  | cons e rest ih =>
      intro s hne
      have he : e ≠ FeedbackEvent.newSearch := by
        intro hcontra; exact hne (hcontra ▸ List.mem_cons_self e rest)
      have hrest : FeedbackEvent.newSearch ∉ rest := by
        intro hcontra; exact hne (List.mem_cons_of_mem e hcontra)
      calc (runFeedback (feedbackStep s e) rest).savedDocs +
              (if (runFeedback (feedbackStep s e) rest).feedbackSubmitted then 0 else 1) ≤
            (feedbackStep s e).savedDocs +
              (if (feedbackStep s e).feedbackSubmitted then 0 else 1) := ih _ hrest
        _ ≤ s.savedDocs + (if s.feedbackSubmitted then 0 else 1) :=
            feedbackStep_budget s e he

/-- A non-newSearch event on a submitted state writes nothing and keeps
the submitted flag. -/
lemma feedbackStep_submitted (s : FeedbackState) (e : FeedbackEvent)
    (h : e ≠ .newSearch) (hs : s.feedbackSubmitted = true) :
    (feedbackStep s e).savedDocs = s.savedDocs ∧
    (feedbackStep s e).feedbackSubmitted = true := by
  cases e with
  | click saveOk =>
      simp only [feedbackStep]
      by_cases hd : s.btnDisabled
      · simp [hd, hs]
      · simp [hd, handleFeedbackSubmit, hs]
  | ratingsChanged complete => simp [feedbackStep, hs]
  | newSearch => exact absurd rfl h

lemma runFeedback_submitted :
    ∀ (events : List FeedbackEvent) (s : FeedbackState),
      FeedbackEvent.newSearch ∉ events → s.feedbackSubmitted = true →
      (runFeedback s events).savedDocs = s.savedDocs ∧
      (runFeedback s events).feedbackSubmitted = true := by
  intro events
  induction events with
  | nil => intro s _ hs; exact ⟨rfl, hs⟩
  | cons e rest ih =>
      intro s hne hs
      have he : e ≠ FeedbackEvent.newSearch := by
        intro hcontra; exact hne (hcontra ▸ List.mem_cons_self e rest)
      have hrest : FeedbackEvent.newSearch ∉ rest := by
        intro hcontra; exact hne (List.mem_cons_of_mem e hcontra)
      have hstep := feedbackStep_submitted s e he hs
      have := ih (feedbackStep s e) hrest hstep.2
      exact ⟨hstep.1 ▸ this.1, this.2⟩

/-- C10: feedback for a given search is persisted at most once.  Between
two searches (no newSearch event), a fresh search state admits at most
one written feedback document over any click/rating sequence; once
submitted, no further event writes a document or clears the flag (only a
new search resets it); and a failed save on an available database leaves
the state exactly as before the click, so the same feedback can be
retried. -/
theorem C10_feedback_once (s : FeedbackState) (events : List FeedbackEvent)
    (hne : FeedbackEvent.newSearch ∉ events) :
    (s.feedbackSubmitted = false →
      (runFeedback s events).savedDocs ≤ s.savedDocs + 1) ∧
    (s.feedbackSubmitted = true →
      (runFeedback s events).savedDocs = s.savedDocs ∧
      (runFeedback s events).feedbackSubmitted = true) ∧
    (s.feedbackSubmitted = false → s.isSubmitting = false →
      s.btnDisabled = false → s.dbAvailable = true →
      feedbackStep s (.click false) = s) := by
  refine ⟨?_, runFeedback_submitted events s hne, ?_⟩
  · intro hs
    have h := runFeedback_budget events s hne
    rw [hs] at h
    simp only [Bool.false_eq_true, if_false] at h
    split_ifs at h <;> omega
  · intro h1 h2 h3 h4
    simp only [feedbackStep, h3, if_false]
    unfold handleFeedbackSubmit
    rw [h3, h2, h1]
    simp only [Bool.or_false, Bool.or_self, if_true, h4]
    cases s with
    | mk a b c d e => simp_all

/-- C10 witness: from a fresh ready state with Firestore available, a
sequence of repeated clicks and rating changes writes at most one
document, and a failed-save click leaves the state unchanged. -/
theorem C10_feedback_once_witness :
    (runFeedback
      { feedbackSubmitted := false, isSubmitting := false, btnDisabled := false,
        dbAvailable := true, savedDocs := 0 }
      [FeedbackEvent.click true, FeedbackEvent.ratingsChanged true,
       FeedbackEvent.click true, FeedbackEvent.click true]).savedDocs ≤ 0 + 1 ∧
    feedbackStep
      { feedbackSubmitted := false, isSubmitting := false, btnDisabled := false,
        dbAvailable := true, savedDocs := 0 } (.click false) =
      { feedbackSubmitted := false, isSubmitting := false, btnDisabled := false,
        dbAvailable := true, savedDocs := 0 } := by
  constructor
  · exact (C10_feedback_once
      { feedbackSubmitted := false, isSubmitting := false, btnDisabled := false,
        dbAvailable := true, savedDocs := 0 }
      [FeedbackEvent.click true, FeedbackEvent.ratingsChanged true,
       FeedbackEvent.click true, FeedbackEvent.click true] (by decide)).1 rfl
  · exact (C10_feedback_once
      { feedbackSubmitted := false, isSubmitting := false, btnDisabled := false,
        dbAvailable := true, savedDocs := 0 } [] (by decide)).2.2 rfl rfl rfl rfl

end GenesisMelodies
